import Mathlib

/-!
# Verification of the airlink-panel SPA navigation subsystem

Shallow embedding of `src/public/javascript/spa-router.js` (classes
`SPARouter` and `IntelligentPreloader`) and of the `ComponentPersistence`
class, together with theorems settling the specification claims about
them.

Conventions of the embedding:
* JavaScript `Map`s become association lists `List (String × α)`;
  `Map.set` replaces in place (preserving insertion order) or appends,
  `Map.delete` filters, matching JS semantics.
* The network is an oracle `server : Nat → AttemptResult` giving the
  outcome of the n-th fetch attempt; waits (`setTimeout` delays) are
  recorded as a list of simulated milliseconds.
* Truthiness of JS strings is modelled as `≠ ""`, of `null`/`undefined`
  object references as `Option`.
-/

/-- JavaScript `String.prototype.includes` on explicit character lists:
`hasSubstring hay needle` is true iff `needle` occurs contiguously in
`hay`. -/
def hasSubstring : List Char → List Char → Bool
  | [], needle => needle.isEmpty
  | c :: t, needle => needle.isPrefixOf (c :: t) || hasSubstring t needle

/-- Here `includesStr s pat` models the JS expression `s.includes(pat)`. -/
def includesStr (s pat : String) : Bool :=
  hasSubstring s.data pat.data

/-- Here `startsWithStr s pat` models the JS expression `s.startsWith(pat)`
(on explicit character lists, so that concrete instances evaluate inside
the kernel). -/
def startsWithStr (s pat : String) : Bool :=
  pat.data.isPrefixOf s.data

/-- JS `Map.prototype.get` on an association list (first binding wins, as JS
maps have unique keys). -/
def jsMapGet {α : Type} (m : List (String × α)) (k : String) : Option α :=
  (m.find? (fun p => p.1 = k)).map (fun p => p.2)

/-- JS `Map.prototype.set`: replace the existing binding in place, else
append (JS maps preserve insertion order). -/
def jsMapSet {α : Type} (m : List (String × α)) (k : String) (v : α) :
    List (String × α) :=
  if m.any (fun p => p.1 = k) then
    m.map (fun p => if p.1 = k then (k, v) else p)
  else m ++ [(k, v)]

/-- JS `Map.prototype.delete`. -/
def jsMapDelete {α : Type} (m : List (String × α)) (k : String) :
    List (String × α) :=
  m.filter (fun p => ¬(p.1 = k))

/-! ## Fetch with retry: `SPARouter.fetchPageData`

The JS function (spa-router.js lines 155-197) is

```
async fetchPageData(path, retryCount = 0) {
  const maxRetries = 3;
  const retryDelay = 1000 * Math.pow(2, retryCount);
  try {
    const controller = new AbortController();
    const timeoutId = setTimeout(() => controller.abort(), 10000);
    const response = await fetch(..., \x7b signal: controller.signal \x7d);
    clearTimeout(timeoutId);
    if (!response.ok) {
      if (response.status >= 500 && retryCount < maxRetries) {
        await delay(retryDelay);
        return this.fetchPageData(path, retryCount + 1);
      }
      throw new Error(`HTTP ${response.status}: ${response.statusText}`);
    }
    return await response.json();
  } catch (error) {
    if (error.name === 'AbortError')
      throw new Error('Request timeout - please check your connection');
    if (retryCount < maxRetries &&
        (error.message.includes('fetch') || error.message.includes('network'))) {
      await delay(retryDelay);
      return this.fetchPageData(path, retryCount + 1);
    }
    throw error;
  }
}
```

The embedding makes the exception flow explicit.  An attempt (indexed by
a global attempt counter fed to the `server` oracle) either resolves to a
response (status, statusText, payload), rejects with a network-level
error carrying a message, or is aborted by the 10-second timer
(`AbortError`).  A recursive call made from the *try* block (the ≥500
branch) has its exceptions caught by this frame's catch; a recursive
call made from the *catch* block does not. -/

/-- Outcome of one raw fetch attempt, as decided by the environment. -/
inductive AttemptResult where
  /-- The fetch resolved: HTTP status, status text, and (if parsed) the
  JSON payload, abstracted to a `Nat` tag. -/
  | response (status : Nat) (statusText : String) (payload : Nat)
  /-- The fetch rejected at the network level with the given message
  (e.g. `"Failed to fetch"`); the error name is not `AbortError`. -/
  | networkError (msg : String)
  /-- The 10-second client-side deadline elapsed: the controller aborted
  the fetch, which rejected with an `AbortError`. -/
  | timedOut

instance {ε α : Type} [DecidableEq ε] [DecidableEq α] :
    DecidableEq (Except ε α) := fun a b =>
  match a, b with
  | .ok x, .ok y =>
      if h : x = y then .isTrue (by rw [h])
      else .isFalse (by intro hc; cases hc; exact h rfl)
  | .error x, .error y =>
      if h : x = y then .isTrue (by rw [h])
      else .isFalse (by intro hc; cases hc; exact h rfl)
  | .ok _, .error _ => .isFalse (by intro hc; cases hc)
  | .error _, .ok _ => .isFalse (by intro hc; cases hc)

/-- Result of a `fetchPageData` call: the returned payload or the thrown
error message, the next unconsumed attempt index, and the list of
simulated backoff waits (ms) performed, in order. -/
structure FetchOut where
  result : Except String Nat
  next : Nat
  delays : List Nat
  deriving DecidableEq, Repr

/-- The message `fetchPageData` throws when an attempt is aborted by the
10-second deadline. -/
def timeoutMessage : String := "Request timeout - please check your connection"

/-- The message thrown for a non-ok response that is not retried. -/
def httpErrorMessage (status : Nat) (statusText : String) : String :=
  "HTTP " ++ toString status ++ ": " ++ statusText

/-- The catch block's retry test: JS
`error.message.includes('fetch') || error.message.includes('network')`. -/
def retryableMessage (msg : String) : Bool :=
  includesStr msg "fetch" || includesStr msg "network"

/-- Shallow embedding of `SPARouter.fetchPageData`.  `retryCount` is the
function's own parameter, `idx` the global attempt counter consumed by
the oracle. -/
def SPARouter.fetchPageData (server : Nat → AttemptResult)
    (retryCount : Nat) (idx : Nat) : FetchOut :=
  match server idx with
  | .response status statusText payload =>
      if 200 ≤ status ∧ status ≤ 299 then
        -- response.ok: return await response.json()
        ⟨.ok payload, idx + 1, []⟩
      else if h : 500 ≤ status ∧ retryCount < 3 then
        -- retry from inside the try block: exceptions of the recursive
        -- call fall through to *this* frame's catch
        let r := SPARouter.fetchPageData server (retryCount + 1) (idx + 1)
        match r.result with
        | .ok p => ⟨.ok p, r.next, 1000 * 2 ^ retryCount :: r.delays⟩
        | .error m =>
            if retryCount < 3 ∧ retryableMessage m then
              -- catch retries again; this recursion is in the catch
              -- block, so its exceptions propagate
              let r2 := SPARouter.fetchPageData server (retryCount + 1) r.next
              ⟨r2.result, r2.next,
                1000 * 2 ^ retryCount :: r.delays ++ 1000 * 2 ^ retryCount :: r2.delays⟩
            else ⟨.error m, r.next, 1000 * 2 ^ retryCount :: r.delays⟩
      else
        -- throw new Error(`HTTP ...`) inside the try block: caught by
        -- this frame's own catch, which may retry on message content
        if h2 : retryCount < 3 ∧ retryableMessage (httpErrorMessage status statusText) then
          let r := SPARouter.fetchPageData server (retryCount + 1) (idx + 1)
          ⟨r.result, r.next, 1000 * 2 ^ retryCount :: r.delays⟩
        else ⟨.error (httpErrorMessage status statusText), idx + 1, []⟩
  | .networkError msg =>
      -- caught by catch; name is not AbortError
      if h : retryCount < 3 ∧ retryableMessage msg then
        let r := SPARouter.fetchPageData server (retryCount + 1) (idx + 1)
        ⟨r.result, r.next, 1000 * 2 ^ retryCount :: r.delays⟩
      else ⟨.error msg, idx + 1, []⟩
  | .timedOut =>
      -- catch sees AbortError and rethrows the timeout message from the
      -- catch block: terminal, never retried
      ⟨.error timeoutMessage, idx + 1, []⟩
termination_by 3 - retryCount
decreasing_by all_goals omega

/-! ## Router state and `SPARouter.navigate`

State of a `SPARouter` instance together with the DOM/browser pieces it
mutates (content region, document title, history stack, loading and
error UI).  `historyStack` has the current entry at the head;
`history.pushState` conses a new entry, `history.replaceState` replaces
the head.  Entry timestamps (`Date.now()`) are omitted: no claim
mentions them. -/

/-- A page fragment as served by `/api/page-content`.  `title = ""`
models an absent/falsy title. -/
structure Fragment where
  content : String
  title : String
  deriving DecidableEq, Repr

/-- A browser history entry `{path, title}`. -/
structure HistEntry where
  path : String
  title : String
  deriving DecidableEq, Repr

/-- Observable state of the router, the caches and the DOM hooks it
drives. -/
structure RouterState where
  cache : List (String × Fragment)
  preloadCache : List (String × Fragment)
  currentRoute : Option String
  historyStack : List HistEntry
  docTitle : String
  contentHTML : String
  isNavigating : Bool
  loadingVisible : Bool
  errorVisible : Bool
  errorMessage : String
  lastFailedPath : Option String
  deriving DecidableEq, Repr

/-- Shallow embedding of `SPARouter.navigate(path, pushState, isInitial)`
(spa-router.js lines 98-153).  `fetchResult` is the oracle outcome of
`fetchPageData(path)` (its thrown message or returned fragment), used
only when the path is in neither cache.  The `showErrorState` branch
(lines 340-375) records `lastFailedPath = this.currentRoute` and shows
the error banner. -/
def SPARouter.navigate (fetchResult : Except String Fragment)
    (path : String) (pushState : Bool) (isInitial : Bool)
    (s : RouterState) : RouterState :=
  if s.isNavigating ∧ ¬isInitial then s
  else
    -- this.isNavigating = true; this.showLoadingState();
    let s1 : RouterState := { s with isNavigating := true, loadingVisible := true }
    -- let pageData = this.cache.get(path) || this.preloadCache.get(path);
    -- if (!pageData) pageData = await this.fetchPageData(path);
    let pageData : Except String Fragment :=
      match jsMapGet s1.cache path with
      | some f => .ok f
      | none =>
          match jsMapGet s1.preloadCache path with
          | some f => .ok f
          | none => fetchResult
    match pageData with
    | .ok f =>
        -- renderPage: swap content, set title when truthy
        let s2 : RouterState :=
          { s1 with contentHTML := f.content,
                    docTitle := if f.title ≠ "" then f.title else s1.docTitle }
        -- this.cache.set(path, pageData); this.preloadCache.delete(path);
        let s3 : RouterState :=
          { s2 with cache := jsMapSet s2.cache path f,
                    preloadCache := jsMapDelete s2.preloadCache path }
        -- pageData.title || document.title (title already rendered)
        let entryTitle := if f.title ≠ "" then f.title else s2.docTitle
        let s4 : RouterState :=
          if pushState ∧ ¬isInitial then
            { s3 with historyStack := ⟨path, entryTitle⟩ :: s3.historyStack }
          else if isInitial then
            { s3 with historyStack := ⟨path, entryTitle⟩ :: s3.historyStack.tail }
          else s3
        let s5 : RouterState := { s4 with currentRoute := some path }
        -- finally: hideLoadingState; isNavigating = false
        { s5 with loadingVisible := false, isNavigating := false }
    | .error e =>
        -- catch: showErrorState(error)
        let s2 : RouterState :=
          { s1 with lastFailedPath := s1.currentRoute,
                    errorVisible := true,
                    errorMessage :=
                      if e ≠ "" then e
                      else "An unexpected error occurred while loading the page." }
        { s2 with loadingVisible := false, isNavigating := false }

/-- The path the error affordance's retry control navigates to when
clicked: `showErrorState` wires `retryButton.onclick` to
`this.navigate(this.lastFailedPath)`. -/
def SPARouter.retryTarget (s : RouterState) : Option String :=
  s.lastFailedPath

/-! ## Click interception: `SPARouter.setupNavigationInterception`

The global click listener (spa-router.js lines 33-53).  A `Link` is the
data of the `a[href]` element the click resolved to.  The handler's
decision is `some href` when it calls `e.preventDefault()` and issues
exactly one `this.navigate(href)` call, and `none` when it returns and
lets native navigation proceed. -/

/-- The attributes of a clicked `<a href=...>` element that the handler
consults. -/
structure Link where
  href : String
  target : String
  hasDownload : Bool
  classes : List String
  hasDataNoSpa : Bool
  deriving DecidableEq, Repr

/-- Shallow embedding of the click handler's decision: `some href` =
default suppressed and one `navigate(href)` call; `none` = fall through
to native navigation. -/
def SPARouter.clickIntercept (l : Link) : Option String :=
  if l.href == "" || startsWithStr l.href "#" || startsWithStr l.href "mailto:" ||
      startsWithStr l.href "tel:" || includesStr l.href "://" ||
      l.hasDownload || l.target == "_blank" then none
  else if l.classes.contains "external-link" || l.hasDataNoSpa then none
  else some l.href

/-- Modelled from the spec's words, for refinement comparison with
`SPARouter.clickIntercept` (claim C3): a click is eligible for
interception iff the link is same-origin and non-special — the only
exclusions being empty hrefs, anchors starting with `#`, `mailto:` and
`tel:` links, *cross-origin* absolute URLs (absolute = contains `://`;
same-origin = starts with the page origin), links opening in a new
context (`target="_blank"`), links with an opt-out marker
(`external-link` class or `data-no-spa`), and download links. -/
def specClickEligible (origin : String) (l : Link) : Bool :=
  !(l.href = "") && !(startsWithStr l.href "#") && !(startsWithStr l.href "mailto:") &&
    !(startsWithStr l.href "tel:") &&
    !(includesStr l.href "://" && !(startsWithStr l.href origin)) &&
    !(l.target = "_blank") &&
    !(l.classes.contains "external-link" || l.hasDataNoSpa) &&
    !l.hasDownload

/-! ## The `IntelligentPreloader`

Embedding of `shouldPreload`, `preloadPage` and `preloadNow`
(spa-router.js lines 517-643).  `shouldPreload(href, linkElement)`
dereferences `linkElement` unconditionally once the earlier skip-checks
pass; `preloadPage` invokes it as `this.shouldPreload(href)` — with
`linkElement === undefined` — so that dereference throws a `TypeError`.
The embedding returns `Except JsError` to carry that exception. -/

/-- A thrown JavaScript exception. -/
inductive JsError where
  | typeError (msg : String)
  deriving DecidableEq, Repr

/-- The link-element data `shouldPreload` consults when it receives one. -/
structure LinkElem where
  hasNoPreloadAttr : Bool
  hasDownloadAttr : Bool
  deriving DecidableEq, Repr

/-- State of an `IntelligentPreloader` plus the two router caches it
reads and writes.  `preloadQueue` keeps `{href, priority, source}`
tasks in insertion order; `preloadingInProgress` is the in-flight set. -/
structure PreloaderState where
  routerCache : List (String × Fragment)
  routerPreloadCache : List (String × Fragment)
  preloadingInProgress : List String
  preloadQueue : List (String × Nat × String)
  deriving DecidableEq, Repr

/-- Shallow embedding of `IntelligentPreloader.shouldPreload(href,
linkElement)` (lines 517-539).  `origin` is `window.location.origin`.
When `linkElement` is `none` (i.e. `undefined`) and control reaches
`linkElement.hasAttribute('data-no-preload')`, the call throws. -/
def IntelligentPreloader.shouldPreload (origin : String)
    (st : PreloaderState) (href : String) (linkElement : Option LinkElem) :
    Except JsError Bool :=
  if href = "" then .ok false
  else if includesStr href "://" && !startsWithStr href origin then .ok false
  else if startsWithStr href "#" || startsWithStr href "mailto:" || startsWithStr href "tel:" then
    .ok false
  else if (jsMapGet st.routerCache href).isSome ||
      (jsMapGet st.routerPreloadCache href).isSome then .ok false
  else if st.preloadingInProgress.contains href then .ok false
  else
    match linkElement with
    | none =>
        .error (.typeError "Cannot read properties of undefined (reading hasAttribute)")
    | some el =>
        if el.hasNoPreloadAttr then .ok false
        else if el.hasDownloadAttr then .ok false
        else .ok true

/-- What the synchronous prefix of a `preloadPage` call did. -/
inductive PreloadStep where
  /-- `shouldPreload` threw; nothing was recorded and no fetch started. -/
  | threw (e : JsError)
  /-- `shouldPreload` returned false; the call returned without effect. -/
  | skipped
  /-- Concurrency limit reached: the task went into `preloadQueue`. -/
  | queued
  /-- The href joined `preloadingInProgress` and its fetch was issued. -/
  | started
  deriving DecidableEq, Repr

/-- Shallow embedding of the synchronous prefix of
`IntelligentPreloader.preloadPage(href, priority, source)` (lines
563-572): the eligibility check — invoked as `this.shouldPreload(href)`,
i.e. with an `undefined` link element — then the concurrency-limit
check, then either enqueueing or joining the in-flight set and issuing
the fetch. -/
def IntelligentPreloader.preloadPage (origin : String) (st : PreloaderState)
    (href : String) (priority : Nat) (source : String) :
    PreloadStep × PreloaderState :=
  match IntelligentPreloader.shouldPreload origin st href none with
  | .error e => (.threw e, st)
  | .ok false => (.skipped, st)
  | .ok true =>
      if st.preloadingInProgress.length ≥ 2 then
        (.queued, { st with preloadQueue := st.preloadQueue ++ [(href, priority, source)] })
      else
        (.started, { st with preloadingInProgress := st.preloadingInProgress ++ [href] })

/-- Embedding of `IntelligentPreloader.preloadNow(href)` (lines 641-643): the manual
entry point, `this.preloadPage(href, 1, 'manual')`. -/
def IntelligentPreloader.preloadNow (origin : String) (st : PreloaderState)
    (href : String) : PreloadStep × PreloaderState :=
  IntelligentPreloader.preloadPage origin st href 1 "manual"

/-! ## Periodic cache cleanup: `IntelligentPreloader.cleanupCache`

The body of the 60-second interval (lines 622-638): when the
preloader's speculative cache holds more than `maxCacheSize = 20`
entries, sort them by timestamp ascending (JS `sort` is stable;
`mergeSort` matches), take the oldest `size - 20`, and delete each of
those hrefs from both the preloader's own cache and the router's
`preloadCache`. -/

/-- A preloader cache entry `{data, timestamp, priority, source}`; the
payload is abstracted away (no claim mentions it). -/
structure PreloadEntry where
  timestamp : Nat
  priority : Nat
  source : String
  deriving DecidableEq, Repr

/-- One tick of the cleanup interval, acting on the preloader's own
cache and the router's speculative cache. -/
def IntelligentPreloader.cleanupTick
    (preloadCache : List (String × PreloadEntry))
    (routerPreloadCache : List (String × Fragment)) :
    List (String × PreloadEntry) × List (String × Fragment) :=
  if preloadCache.length ≤ 20 then (preloadCache, routerPreloadCache)
  else
    let entries := preloadCache.mergeSort
      (fun a b => a.2.timestamp ≤ b.2.timestamp)
    let toRemove := entries.take (entries.length - 20)
    (toRemove.foldl (fun m p => jsMapDelete m p.1) preloadCache,
     toRemove.foldl (fun m p => jsMapDelete m p.1) routerPreloadCache)

/-! ## Component persistence: capture and restore

Embedding of `ComponentPersistence.captureComponentState` and
`restoreComponentState` (component-persistence file, lines 44-85 and
121-165).  A persistent region is modelled as its scroll offsets, its
descendant elements in document order, and its descendant forms in
document order.  `querySelector` is "first element matching" over that
order; CSS class selectors match by set inclusion of class tokens.
`classList`/`className` round through the token list directly (class
tokens contain no whitespace, so `join(' ')` followed by re-tokenising
is the identity on the token list). -/

/-- A descendant element of a persistent region: id (`""` = none), tag
name, class token list, attribute map (name ↦ value, excluding `class`
and `style`), and the inline `style.cssText` string. -/
structure Elem where
  id : String
  tag : String
  classes : List String
  attrs : List (String × String)
  styleCss : String
  deriving DecidableEq, Repr

/-- A form control with a `name` and a current `value`. -/
structure FormField where
  name : String
  value : String
  deriving DecidableEq, Repr

/-- A descendant form: id (`""` = none) and its named controls in
document order (`FormData` iterates them in that order). -/
structure Form where
  id : String
  fields : List FormField
  deriving DecidableEq, Repr

/-- A persistent region (e.g. the sidebar): scroll offsets plus its
descendant elements and forms. -/
structure Region where
  scrollTop : Nat
  scrollLeft : Nat
  elems : List Elem
  forms : List Form
  deriving DecidableEq, Repr

/-- Does the element match `'.active, .nav-link.active, [aria-current="page"]'`?
(`.nav-link.active` is subsumed by `.active`.) -/
def isActiveMarked (e : Elem) : Bool :=
  e.classes.contains "active" || jsMapGet e.attrs "aria-current" == some "page"

/-- Does the element match `'[data-toggle], .collapsed, .expanded'`? -/
def isToggleMarked (e : Elem) : Bool :=
  (jsMapGet e.attrs "data-toggle").isSome ||
    e.classes.contains "collapsed" || e.classes.contains "expanded"

/-- The selector string `getElementSelector` derives, as structured
data: `#id`, `tag.c1.c2...`, or bare `tag`. -/
inductive Selector where
  | byId (i : String)
  | byTagClasses (tag : String) (classes : List String)
  | byTag (tag : String)
  deriving DecidableEq, Repr

/-- Embedding of `ComponentPersistence.getElementSelector` (lines 87-94). -/
def ComponentPersistence.getElementSelector (e : Elem) : Selector :=
  if e.id ≠ "" then .byId e.id
  else if e.classes ≠ [] then .byTagClasses e.tag e.classes
  else .byTag e.tag

/-- CSS matching of a derived selector against an element: an id
selector matches by id; `tag.c1...cn` matches the tag plus every listed
class token (set inclusion — CSS ignores order and extra classes). -/
def matchesSelector (e : Elem) : Selector → Bool
  | .byId i => e.id = i
  | .byTagClasses t cs => e.tag = t && cs.all (fun c => e.classes.contains c)
  | .byTag t => e.tag = t

/-- Embedding of `ComponentPersistence.getElementAttributes` (lines 96-104): keep
only `data-*` attributes and `aria-current`. -/
def ComponentPersistence.getElementAttributes (e : Elem) :
    List (String × String) :=
  e.attrs.filter (fun p => startsWithStr p.1 "data-" || p.1 = "aria-current")

/-- Snapshot of one "active" descendant. -/
structure ActiveSnapshot where
  selector : Selector
  classes : List String
  attributes : List (String × String)
  deriving DecidableEq, Repr

/-- Snapshot of one toggle-style descendant. -/
structure ToggleSnapshot where
  classes : List String
  attributes : List (String × String)
  style : String
  deriving DecidableEq, Repr

/-- A captured component state (lines 45-53): scroll offsets, active
descendants, per-form field values (a JS object keyed by form id, so a
repeated key overwrites), and per-toggle snapshots (likewise keyed). -/
structure ComponentState where
  scrollTop : Nat
  scrollLeft : Nat
  activeElements : List ActiveSnapshot
  formData : List (String × List (String × String))
  customData : List (String × ToggleSnapshot)
  deriving DecidableEq, Repr

/-- Embedding of `generateComponentId(selector)` (lines 40-42): `'component_' +
selector.replace(/[^a-zA-Z0-9]/g, '_') + '_' + Date.now()`; the capture
passes the literal selector strings `'form'` and `'toggle'`. `now` is
the `Date.now()` value. -/
def ComponentPersistence.generateComponentId (selector : String) (now : Nat) :
    String :=
  "component_" ++ selector ++ "_" ++ toString now

/-- Embedding of `ComponentPersistence.captureComponentState(element)` (lines 44-85). -/
def ComponentPersistence.captureComponentState (now : Nat) (r : Region) :
    ComponentState :=
  { scrollTop := r.scrollTop
    scrollLeft := r.scrollLeft
    activeElements :=
      (r.elems.filter isActiveMarked).map (fun e =>
        ⟨ComponentPersistence.getElementSelector e, e.classes,
          ComponentPersistence.getElementAttributes e⟩)
    formData :=
      r.forms.foldl (fun acc f =>
        jsMapSet acc
          (if f.id ≠ "" then f.id
           else ComponentPersistence.generateComponentId "form" now)
          (f.fields.foldl (fun m fl => jsMapSet m fl.name fl.value) [])) []
    customData :=
      (r.elems.filter isToggleMarked).foldl (fun acc t =>
        jsMapSet acc
          (if t.id ≠ "" then t.id
           else ComponentPersistence.generateComponentId "toggle" now)
          ⟨t.classes, ComponentPersistence.getElementAttributes t, t.styleCss⟩) [] }

/-- Replace the first element satisfying `p` by `f` of it (the DOM
`querySelector`-then-mutate pattern); no-op when none matches. -/
def updateFirst {α : Type} (p : α → Bool) (f : α → α) : List α → List α
  | [] => []
  | x :: rest => if p x then f x :: rest else x :: updateFirst p f rest

/-- Apply `setAttribute` for every captured attribute pair (adds or
overwrites; never removes). -/
def applyAttrs (attrs : List (String × String)) (upd : List (String × String)) :
    List (String × String) :=
  upd.foldl (fun a p => jsMapSet a p.1 p.2) attrs

/-- Restoring one active snapshot onto a matched element:
`className = classes.join(' ')` then `setAttribute` for each captured
attribute. -/
def applyActiveSnapshot (snap : ActiveSnapshot) (e : Elem) : Elem :=
  { e with classes := snap.classes, attrs := applyAttrs e.attrs snap.attributes }

/-- Restoring one toggle snapshot onto a matched element: classes,
attributes, and — when the captured style string is truthy —
`style.cssText`. -/
def applyToggleSnapshot (snap : ToggleSnapshot) (e : Elem) : Elem :=
  { e with classes := snap.classes,
           attrs := applyAttrs e.attrs snap.attributes,
           styleCss := if snap.style ≠ "" then snap.style else e.styleCss }

/-- Set `input.value = value` on the first control named `n` (the
`form.querySelector('[name=...]')` target); no-op when none matches. -/
def setFirstField (n v : String) : List FormField → List FormField
  | [] => []
  | fl :: rest =>
      if fl.name = n then { fl with value := v } :: rest
      else fl :: setFirstField n v rest

/-- Write one captured form-data object back into a form. -/
def applyFormData (data : List (String × String)) (f : Form) : Form :=
  { f with fields := data.foldl (fun fs p => setFirstField p.1 p.2 fs) f.fields }

/-- Restore of one form record (lines 140-150):
`element.querySelector('#' + formId) || element.querySelector('form')` —
first the form with that id, else the first form; skipped when neither
exists. -/
def restoreFormRecord (forms : List Form) (formId : String)
    (data : List (String × String)) : List Form :=
  if forms.any (fun f => f.id = formId) then
    updateFirst (fun f => f.id = formId) (applyFormData data) forms
  else
    match forms with
    | [] => []
    | f :: rest => applyFormData data f :: rest

/-- Restore of one toggle record (lines 153-164):
`element.querySelector('#' + toggleId) || element.querySelector('[data-toggle]')`. -/
def restoreToggleRecord (elems : List Elem) (toggleId : String)
    (snap : ToggleSnapshot) : List Elem :=
  if elems.any (fun e => e.id = toggleId) then
    updateFirst (fun e => e.id = toggleId) (applyToggleSnapshot snap) elems
  else
    updateFirst (fun e => (jsMapGet e.attrs "data-toggle").isSome)
      (applyToggleSnapshot snap) elems

/-- Embedding of `ComponentPersistence.restoreComponentState` (lines
121-165): restore scroll offsets, then each active snapshot onto the
first element matching its recorded selector, then each form record,
then each toggle record. -/
def ComponentPersistence.restoreComponentState (r : Region)
    (state : ComponentState) : Region :=
  let elems1 := state.activeElements.foldl (fun es snap =>
    updateFirst (fun e => matchesSelector e snap.selector)
      (applyActiveSnapshot snap) es) r.elems
  let forms1 := state.formData.foldl (fun fs p =>
    restoreFormRecord fs p.1 p.2) r.forms
  let elems2 := state.customData.foldl (fun es p =>
    restoreToggleRecord es p.1 p.2) elems1
  { scrollTop := state.scrollTop
    scrollLeft := state.scrollLeft
    elems := elems2
    forms := forms1 }


/-- Concrete evaluation fixture: a preloader cache of 25 entries with
strictly increasing timestamps (insertion order = age order). -/
def specimenPreloadCache : List (String × PreloadEntry) :=
  [("p01", ⟨10, 3, "hover"⟩),
    ("p02", ⟨20, 3, "hover"⟩),
    ("p03", ⟨30, 3, "hover"⟩),
    ("p04", ⟨40, 3, "hover"⟩),
    ("p05", ⟨50, 3, "hover"⟩),
    ("p06", ⟨60, 3, "hover"⟩),
    ("p07", ⟨70, 3, "hover"⟩),
    ("p08", ⟨80, 3, "hover"⟩),
    ("p09", ⟨90, 3, "hover"⟩),
    ("p10", ⟨100, 3, "hover"⟩),
    ("p11", ⟨110, 3, "hover"⟩),
    ("p12", ⟨120, 3, "hover"⟩),
    ("p13", ⟨130, 3, "hover"⟩),
    ("p14", ⟨140, 3, "hover"⟩),
    ("p15", ⟨150, 3, "hover"⟩),
    ("p16", ⟨160, 3, "hover"⟩),
    ("p17", ⟨170, 3, "hover"⟩),
    ("p18", ⟨180, 3, "hover"⟩),
    ("p19", ⟨190, 3, "hover"⟩),
    ("p20", ⟨200, 3, "hover"⟩),
    ("p21", ⟨210, 3, "hover"⟩),
    ("p22", ⟨220, 3, "hover"⟩),
    ("p23", ⟨230, 3, "hover"⟩),
    ("p24", ⟨240, 3, "hover"⟩),
    ("p25", ⟨250, 3, "hover"⟩)]

/-- Concrete evaluation fixture: the router speculative cache holding
the same 25 paths. -/
def specimenRouterPreloadCache : List (String × Fragment) :=
  [("p01", ⟨"c01", "T01"⟩),
    ("p02", ⟨"c02", "T02"⟩),
    ("p03", ⟨"c03", "T03"⟩),
    ("p04", ⟨"c04", "T04"⟩),
    ("p05", ⟨"c05", "T05"⟩),
    ("p06", ⟨"c06", "T06"⟩),
    ("p07", ⟨"c07", "T07"⟩),
    ("p08", ⟨"c08", "T08"⟩),
    ("p09", ⟨"c09", "T09"⟩),
    ("p10", ⟨"c10", "T10"⟩),
    ("p11", ⟨"c11", "T11"⟩),
    ("p12", ⟨"c12", "T12"⟩),
    ("p13", ⟨"c13", "T13"⟩),
    ("p14", ⟨"c14", "T14"⟩),
    ("p15", ⟨"c15", "T15"⟩),
    ("p16", ⟨"c16", "T16"⟩),
    ("p17", ⟨"c17", "T17"⟩),
    ("p18", ⟨"c18", "T18"⟩),
    ("p19", ⟨"c19", "T19"⟩),
    ("p20", ⟨"c20", "T20"⟩),
    ("p21", ⟨"c21", "T21"⟩),
    ("p22", ⟨"c22", "T22"⟩),
    ("p23", ⟨"c23", "T23"⟩),
    ("p24", ⟨"c24", "T24"⟩),
    ("p25", ⟨"c25", "T25"⟩)]

/-! ## Theorems -/

/-- C2: a non-initial `navigate(otherPath)` call made while another
navigation is in flight (`isNavigating = true`) is a no-op: the router
state — content region, history stack, both caches, and all UI flags —
is returned unchanged. -/
theorem navigate_concurrent_noop (fetchResult : Except String Fragment)
    (path : String) (pushState : Bool) (s : RouterState)
    (h : s.isNavigating = true) :
    SPARouter.navigate fetchResult path pushState false s = s := by
  simp [SPARouter.navigate, h]

/-- Witness for `navigate_concurrent_noop` at a concrete in-flight
state. -/
theorem navigate_concurrent_noop_witness :
    SPARouter.navigate (.error "boom") "/b" true false
      ⟨[], [], some "/a", [], "T", "c", true, false, false, "", none⟩ =
      ⟨[], [], some "/a", [], "T", "c", true, false, false, "", none⟩ :=
  navigate_concurrent_noop _ _ _ _ rfl

/-- C10: when fragment resolution for an uncached path raises an error,
a non-initial `navigate(path)` leaves the observable navigation state
unchanged: both caches, `currentRoute`, the history stack, the document
title and the content region keep their prior values, and the in-flight
flag is reset to `false`. -/
theorem navigate_error_atomic (e : String) (path : String)
    (pushState : Bool) (s : RouterState)
    (h1 : jsMapGet s.cache path = none)
    (h2 : jsMapGet s.preloadCache path = none)
    (h3 : s.isNavigating = false) :
    (SPARouter.navigate (.error e) path pushState false s).cache = s.cache ∧
    (SPARouter.navigate (.error e) path pushState false s).preloadCache = s.preloadCache ∧
    (SPARouter.navigate (.error e) path pushState false s).currentRoute = s.currentRoute ∧
    (SPARouter.navigate (.error e) path pushState false s).historyStack = s.historyStack ∧
    (SPARouter.navigate (.error e) path pushState false s).docTitle = s.docTitle ∧
    (SPARouter.navigate (.error e) path pushState false s).contentHTML = s.contentHTML ∧
    (SPARouter.navigate (.error e) path pushState false s).isNavigating = false := by
  simp [SPARouter.navigate, h1, h2, h3]

/-- Witness for `navigate_error_atomic` at a concrete state with an
uncached path. -/
theorem navigate_error_atomic_witness :
    (SPARouter.navigate (.error "HTTP 404: Not Found") "/b" true false
      ⟨[("/a", ⟨"ca", "A"⟩)], [], some "/a", [⟨"/a", "A"⟩], "A", "ca",
        false, false, false, "", none⟩).currentRoute = some "/a" ∧
    (SPARouter.navigate (.error "HTTP 404: Not Found") "/b" true false
      ⟨[("/a", ⟨"ca", "A"⟩)], [], some "/a", [⟨"/a", "A"⟩], "A", "ca",
        false, false, false, "", none⟩).historyStack = [⟨"/a", "A"⟩] := by
  have h := navigate_error_atomic "HTTP 404: Not Found" "/b" true
    ⟨[("/a", ⟨"ca", "A"⟩)], [], some "/a", [⟨"/a", "A"⟩], "A", "ca",
      false, false, false, "", none⟩ (by decide) (by decide) rfl
  exact ⟨h.2.2.1, h.2.2.2.1⟩

/-- C8 (code bug): after `navigate("/b")` fails terminally while the
displayed route is `"/a"`, `showErrorState` records
`lastFailedPath = this.currentRoute`, which still holds the *previous*
route `"/a"` (it is only advanced on success) — so the retry control
navigates to `"/a"`, not to the failed path `"/b"`. -/
theorem retryTarget_is_previous_route :
    SPARouter.retryTarget
      (SPARouter.navigate (.error "HTTP 500: Internal Server Error") "/b"
        true false
        ⟨[], [], some "/a", [⟨"/a", "A"⟩], "A", "xa", false, false, false,
          "", none⟩) = some "/a" ∧
    SPARouter.retryTarget
      (SPARouter.navigate (.error "HTTP 500: Internal Server Error") "/b"
        true false
        ⟨[], [], some "/a", [⟨"/a", "A"⟩], "A", "xa", false, false, false,
          "", none⟩) ≠ some "/b" := by
  decide

/-- C3 counterexample: a click on a same-origin *absolute* URL
(`http://localhost/admin` with origin `http://localhost`) is eligible
under the spec's wording (`specClickEligible`) but the handler does not
intercept it — `href.includes('://')` sends every absolute URL to
native navigation, same-origin or not. -/
theorem clickIntercept_sameOrigin_absolute_counterexample :
    specClickEligible "http://localhost"
      ⟨"http://localhost/admin", "", false, [], false⟩ = true ∧
    SPARouter.clickIntercept
      ⟨"http://localhost/admin", "", false, [], false⟩ = none := by
  decide

/-- C3 (amended): the click handler intercepts a link — suppressing
native navigation and issuing exactly one `navigate(href)` call — iff
its href is non-empty, is not an anchor/`mailto:`/`tel:` link, contains
no `://` (so *all* absolute URLs fall through, same-origin ones
included), and the link is not a download link, does not open in a new
context, and carries no opt-out marker. -/
theorem clickIntercept_characterisation (l : Link) :
    SPARouter.clickIntercept l = some l.href ↔
      (l.href ≠ "" ∧ startsWithStr l.href "#" = false ∧
        startsWithStr l.href "mailto:" = false ∧
        startsWithStr l.href "tel:" = false ∧
        includesStr l.href "://" = false ∧
        l.hasDownload = false ∧ l.target ≠ "_blank" ∧
        l.classes.contains "external-link" = false ∧
        l.hasDataNoSpa = false) := by
  constructor
  · intro h
    unfold SPARouter.clickIntercept at h
    split_ifs at h with h1 h2
    simp only [Bool.not_eq_true, Bool.or_eq_false_iff, beq_eq_false_iff_ne]
      at h1 h2
    obtain ⟨⟨⟨⟨⟨⟨hA, hB⟩, hC⟩, hD⟩, hE⟩, hF⟩, hG⟩ := h1
    exact ⟨hA, hB, hC, hD, hE, hF, hG, h2.1, h2.2⟩
  · rintro ⟨hne, hh, hm, ht, hi, hd, htg, hel, hns⟩
    have hA : (l.href == "") = false := beq_eq_false_iff_ne.mpr hne
    have hG : (l.target == "_blank") = false := beq_eq_false_iff_ne.mpr htg
    unfold SPARouter.clickIntercept
    rw [if_neg (by simp only [hA, hh, hm, ht, hi, hd, hG]; decide),
      if_neg (by simp only [hel, hns]; decide)]

/-- Helper: `shouldPreload` invoked without a link element — as
`preloadPage` invokes it — never returns `true`: every path that passes
the skip-checks reaches `linkElement.hasAttribute` and throws. -/
theorem shouldPreload_undefined_never_true (origin : String)
    (st : PreloaderState) (href : String) :
    IntelligentPreloader.shouldPreload origin st href none ≠ .ok true := by
  unfold IntelligentPreloader.shouldPreload
  split_ifs <;> simp

/-- C9 (code bug): `preloadNow(path)` on a path that is neither cached
nor mid-preload does not issue any preload fetch: `preloadPage` calls
`this.shouldPreload(href)` without the `linkElement` argument, and
`shouldPreload` throws a `TypeError` reading `hasAttribute` of
`undefined` before any fetch or bookkeeping happens. -/
theorem preloadNow_throws_typeError :
    IntelligentPreloader.preloadNow "http://localhost" ⟨[], [], [], []⟩
      "/user/account" =
      (.threw (.typeError
        "Cannot read properties of undefined (reading hasAttribute)"),
        ⟨[], [], [], []⟩) := by
  decide

/-- C4 (code bug): no call to `preloadPage` — from hover, visibility,
queue drain or `preloadNow` — ever marks a fetch in flight or enqueues
a pending task: whenever the skip-checks would allow a preload, the
`linkElement`-less `shouldPreload` call throws first, so the
concurrency-bound/queue machinery of lines 566-570 is unreachable and
the preloader state is returned unchanged. -/
theorem preloadPage_never_starts_or_queues (origin : String)
    (st : PreloaderState) (href : String) (priority : Nat) (source : String) :
    (IntelligentPreloader.preloadPage origin st href priority source).2 = st ∧
    (IntelligentPreloader.preloadPage origin st href priority source).1 ≠ .started ∧
    (IntelligentPreloader.preloadPage origin st href priority source).1 ≠ .queued := by
  unfold IntelligentPreloader.preloadPage
  rcases h : IntelligentPreloader.shouldPreload origin st href none with e | b
  · simp [h]
  · cases b
    · simp [h]
    · exact absurd h (shouldPreload_undefined_never_true origin st href)

/-- C6: an attempt aborted by the 10-second client-side deadline is
terminal: whatever the remaining retry budget (`retryCount`), the call
performs no wait and no further attempt, and throws the dedicated
timeout message — which differs from every `HTTP <status>: <text>`
failure message. -/
theorem fetchPageData_timeout_terminal (server : Nat → AttemptResult)
    (retryCount idx : Nat) (h : server idx = .timedOut) :
    SPARouter.fetchPageData server retryCount idx =
      ⟨.error timeoutMessage, idx + 1, []⟩ ∧
    (∀ status statusText, httpErrorMessage status statusText ≠ timeoutMessage) := by
  constructor
  · rw [SPARouter.fetchPageData, h]
  · intro status statusText hc
    have h2 := congrArg String.data hc
    unfold httpErrorMessage timeoutMessage at h2
    rw [String.data_append, String.data_append, String.data_append] at h2
    have h3 : "HTTP ".data = ['H', 'T', 'T', 'P', ' '] := rfl
    have h4 : "Request timeout - please check your connection".data =
      'R' :: "equest timeout - please check your connection".data := rfl
    rw [h3, h4] at h2
    simp at h2

/-- Witness for `fetchPageData_timeout_terminal`: a server whose every
attempt hits the deadline. -/
theorem fetchPageData_timeout_terminal_witness :
    SPARouter.fetchPageData (fun _ => AttemptResult.timedOut) 0 0 =
      ⟨.error timeoutMessage, 1, []⟩ ∧
    (∀ status statusText, httpErrorMessage status statusText ≠ timeoutMessage) :=
  fetchPageData_timeout_terminal (fun _ => AttemptResult.timedOut) 0 0 rfl

/-- Helper for C1: a ≥500 response followed by a 2xx on the retry
returns the 2xx payload after exactly one retry, preceded by a single
1000ms wait. -/
theorem fetchPageData_500_then_200 (server : Nat → AttemptResult)
    (s0 : Nat) (t0 : String) (p0 : Nat) (t1 : String) (p1 : Nat)
    (h0 : server 0 = .response s0 t0 p0) (h500 : 500 ≤ s0)
    (h1 : server 1 = .response 200 t1 p1) :
    SPARouter.fetchPageData server 0 0 = ⟨.ok p1, 2, [1000]⟩ := by
  have hnok : ¬(200 ≤ s0 ∧ s0 ≤ 299) := by omega
  rw [SPARouter.fetchPageData, h0]
  dsimp only
  rw [if_neg hnok, dif_pos ⟨h500, by omega⟩]
  rw [SPARouter.fetchPageData, h1]
  norm_num

/-- Helper for C1: four consecutive 500s (status text free of `fetch`
and `network`) exhaust the 3-retry budget with waits 1000, 2000 and
4000ms and raise the terminal HTTP error. -/
theorem fetchPageData_500_exhausted (server : Nat → AttemptResult)
    (t : String) (p : Nat)
    (hall : ∀ i, i ≤ 3 → server i = .response 500 t p)
    (hclean : retryableMessage (httpErrorMessage 500 t) = false) :
    SPARouter.fetchPageData server 0 0 =
      ⟨.error (httpErrorMessage 500 t), 4, [1000, 2000, 4000]⟩ := by
  have e3 : SPARouter.fetchPageData server 3 3 =
      ⟨.error (httpErrorMessage 500 t), 4, []⟩ := by
    rw [SPARouter.fetchPageData, hall 3 (by omega)]
    dsimp only
    rw [if_neg (by omega), dif_neg (fun hc => absurd hc.2 (by omega)),
      dif_neg (fun hc => absurd hc.1 (by omega))]
  have e2 : SPARouter.fetchPageData server 2 2 =
      ⟨.error (httpErrorMessage 500 t), 4, [4000]⟩ := by
    rw [SPARouter.fetchPageData, hall 2 (by omega)]
    dsimp only
    rw [if_neg (by omega), dif_pos ⟨by omega, by omega⟩, e3]
    dsimp only
    rw [if_neg (by simp [hclean])]
    norm_num
  have e1 : SPARouter.fetchPageData server 1 1 =
      ⟨.error (httpErrorMessage 500 t), 4, [2000, 4000]⟩ := by
    rw [SPARouter.fetchPageData, hall 1 (by omega)]
    dsimp only
    rw [if_neg (by omega), dif_pos ⟨by omega, by omega⟩, e2]
    dsimp only
    rw [if_neg (by simp [hclean])]
    norm_num
  rw [SPARouter.fetchPageData, hall 0 (by omega)]
  dsimp only
  rw [if_neg (by omega), dif_pos ⟨by omega, by omega⟩, e1]
  dsimp only
  rw [if_neg (by simp [hclean])]
  norm_num

/-- Helper for C1: a non-2xx, sub-500 response whose derived message
contains neither `fetch` nor `network` raises immediately — no wait, no
further attempt, whatever the remaining retry budget. -/
theorem fetchPageData_4xx_clean_immediate (server : Nat → AttemptResult)
    (retryCount idx status : Nat) (t : String) (p : Nat)
    (h0 : server idx = .response status t p)
    (hnok : ¬(200 ≤ status ∧ status ≤ 299)) (hlt : status < 500)
    (hclean : retryableMessage (httpErrorMessage status t) = false) :
    SPARouter.fetchPageData server retryCount idx =
      ⟨.error (httpErrorMessage status t), idx + 1, []⟩ := by
  rw [SPARouter.fetchPageData, h0]
  dsimp only
  rw [if_neg hnok, dif_neg (fun hc => absurd hc.1 (by omega)),
    dif_neg (by simp [hclean])]

/-- Helper for C1: persistent network-level failures with the standard
`Failed to fetch` message are retried 3 times with waits 1000, 2000,
4000ms and then propagate. -/
theorem fetchPageData_network_exhausted (server : Nat → AttemptResult)
    (hall : ∀ i, i ≤ 3 → server i = .networkError "Failed to fetch") :
    SPARouter.fetchPageData server 0 0 =
      ⟨.error "Failed to fetch", 4, [1000, 2000, 4000]⟩ := by
  have hr : retryableMessage "Failed to fetch" = true := by decide
  have e3 : SPARouter.fetchPageData server 3 3 =
      ⟨.error "Failed to fetch", 4, []⟩ := by
    rw [SPARouter.fetchPageData, hall 3 (by omega)]
    dsimp only
    rw [dif_neg (fun hc => absurd hc.1 (by omega))]
  have e2 : SPARouter.fetchPageData server 2 2 =
      ⟨.error "Failed to fetch", 4, [4000]⟩ := by
    rw [SPARouter.fetchPageData, hall 2 (by omega)]
    dsimp only
    rw [dif_pos ⟨by omega, hr⟩, e3]
    norm_num
  have e1 : SPARouter.fetchPageData server 1 1 =
      ⟨.error "Failed to fetch", 4, [2000, 4000]⟩ := by
    rw [SPARouter.fetchPageData, hall 1 (by omega)]
    dsimp only
    rw [dif_pos ⟨by omega, hr⟩, e2]
    norm_num
  rw [SPARouter.fetchPageData, hall 0 (by omega)]
  dsimp only
  rw [dif_pos ⟨by omega, hr⟩, e1]
  norm_num

/-- C1 counterexample: a server that always answers `404` with status
text `"no network detected"`.  The claim says a 4xx response is never
retried, but the thrown message `HTTP 404: no network detected` contains
`network`, so the catch block retries it three times (waits 1000, 2000,
4000ms) before the error becomes terminal. -/
theorem fetchPageData_4xx_retried_counterexample :
    SPARouter.fetchPageData
        (fun _ => .response 404 "no network detected" 0) 0 0 =
      ⟨.error "HTTP 404: no network detected", 4, [1000, 2000, 4000]⟩ ∧
    [1000, 2000, 4000] ≠ ([] : List Nat) := by
  have hmsg : httpErrorMessage 404 "no network detected" =
    "HTTP 404: no network detected" := by decide
  have hrty : retryableMessage "HTTP 404: no network detected" = true := by
    decide
  refine ⟨?_, by decide⟩
  have e3 : SPARouter.fetchPageData
      (fun _ => .response 404 "no network detected" 0) 3 3 =
      ⟨.error "HTTP 404: no network detected", 4, []⟩ := by
    rw [SPARouter.fetchPageData]
    dsimp only
    rw [if_neg (by omega), dif_neg (fun hc => absurd hc.1 (by omega)),
      dif_neg (fun hc => absurd hc.1 (by omega)), hmsg]
  have e2 : SPARouter.fetchPageData
      (fun _ => .response 404 "no network detected" 0) 2 2 =
      ⟨.error "HTTP 404: no network detected", 4, [4000]⟩ := by
    rw [SPARouter.fetchPageData]
    dsimp only
    rw [if_neg (by omega), dif_neg (fun hc => absurd hc.1 (by omega)), hmsg,
      dif_pos ⟨by omega, hrty⟩, e3]
    norm_num
  have e1 : SPARouter.fetchPageData
      (fun _ => .response 404 "no network detected" 0) 1 1 =
      ⟨.error "HTTP 404: no network detected", 4, [2000, 4000]⟩ := by
    rw [SPARouter.fetchPageData]
    dsimp only
    rw [if_neg (by omega), dif_neg (fun hc => absurd hc.1 (by omega)), hmsg,
      dif_pos ⟨by omega, hrty⟩, e2]
    norm_num
  rw [SPARouter.fetchPageData]
  dsimp only
  rw [if_neg (by omega), dif_neg (fun hc => absurd hc.1 (by omega)), hmsg,
    dif_pos ⟨by omega, hrty⟩, e1]
  norm_num

/-- C1 (amended): `fetchPageData` retries an attempt whose response
status is ≥500 (with waits of 1000·2^k ms before the k-th retry,
counting from k = 0, up to 3 retries, then a terminal error), and a
*caught* failure is retried exactly when its message contains `fetch`
or `network` — which covers the standard network-failure messages but
also any 4xx response whose status text contains those substrings; a
4xx whose derived `HTTP <status>: <text>` message avoids both
substrings raises immediately with no retry.  A 500 followed by a 200
returns the 200 payload after exactly one retry, waiting 1000ms. -/
theorem fetchPageData_retry_policy :
    (∀ (server : Nat → AttemptResult) (s0 : Nat) (t0 : String) (p0 : Nat)
        (t1 : String) (p1 : Nat),
      server 0 = .response s0 t0 p0 → 500 ≤ s0 →
      server 1 = .response 200 t1 p1 →
      SPARouter.fetchPageData server 0 0 = ⟨.ok p1, 2, [1000]⟩) ∧
    (∀ (server : Nat → AttemptResult) (t : String) (p : Nat),
      (∀ i, i ≤ 3 → server i = .response 500 t p) →
      retryableMessage (httpErrorMessage 500 t) = false →
      SPARouter.fetchPageData server 0 0 =
        ⟨.error (httpErrorMessage 500 t), 4, [1000, 2000, 4000]⟩) ∧
    (∀ (server : Nat → AttemptResult) (retryCount idx status : Nat)
        (t : String) (p : Nat),
      server idx = .response status t p → ¬(200 ≤ status ∧ status ≤ 299) →
      status < 500 → retryableMessage (httpErrorMessage status t) = false →
      SPARouter.fetchPageData server retryCount idx =
        ⟨.error (httpErrorMessage status t), idx + 1, []⟩) ∧
    (∀ (server : Nat → AttemptResult),
      (∀ i, i ≤ 3 → server i = .networkError "Failed to fetch") →
      SPARouter.fetchPageData server 0 0 =
        ⟨.error "Failed to fetch", 4, [1000, 2000, 4000]⟩) :=
  ⟨fetchPageData_500_then_200, fetchPageData_500_exhausted,
    fetchPageData_4xx_clean_immediate, fetchPageData_network_exhausted⟩

/-- Witness for `fetchPageData_retry_policy` at concrete servers. -/
theorem fetchPageData_retry_policy_witness :
    SPARouter.fetchPageData
        (fun i => if i = 0 then .response 500 "Internal Server Error" 0
                  else .response 200 "OK" 42) 0 0 = ⟨.ok 42, 2, [1000]⟩ ∧
    SPARouter.fetchPageData
        (fun _ => .response 500 "Internal Server Error" 7) 0 0 =
      ⟨.error (httpErrorMessage 500 "Internal Server Error"), 4,
        [1000, 2000, 4000]⟩ ∧
    SPARouter.fetchPageData (fun _ => .response 404 "Not Found" 0) 0 0 =
      ⟨.error (httpErrorMessage 404 "Not Found"), 1, []⟩ ∧
    SPARouter.fetchPageData (fun _ => .networkError "Failed to fetch") 0 0 =
      ⟨.error "Failed to fetch", 4, [1000, 2000, 4000]⟩ :=
  ⟨fetchPageData_retry_policy.1 _ 500 "Internal Server Error" 0 "OK" 42
      rfl (by omega) rfl,
    fetchPageData_retry_policy.2.1 _ "Internal Server Error" 7
      (fun i _ => rfl) (by decide),
    fetchPageData_retry_policy.2.2.1 _ 0 0 404 "Not Found" 0 rfl
      (by omega) (by omega) (by decide),
    fetchPageData_retry_policy.2.2.2 _ (fun i _ => rfl)⟩

/-- Unfolding lemma: `jsMapGet` on a cons. -/
theorem jsMapGet_cons {α : Type} (q : String × α) (l : List (String × α)) (k : String) :
    jsMapGet (q :: l) k = if q.1 = k then some q.2 else jsMapGet l k := by
  simp only [jsMapGet, List.find?]
  by_cases h : q.1 = k
  · simp [h]
  · simp [h]

/-- Looking a key up after filtering out a key set. -/
theorem jsMapGet_filter_out {α : Type} (m : List (String × α)) (ks : List String) (k : String) :
    jsMapGet (m.filter (fun q => decide (q.1 ∉ ks))) k =
      if k ∈ ks then none else jsMapGet m k := by
  induction m with
  | nil => simp [jsMapGet]
  | cons q m ih =>
    by_cases hq : q.1 ∈ ks
    · rw [List.filter_cons_of_neg (by simp [hq])]
      rw [ih]
      by_cases hk : k ∈ ks
      · simp [hk]
      · have : q.1 ≠ k := fun hc => hk (hc ▸ hq)
        simp [hk, jsMapGet_cons, this]
    · rw [List.filter_cons_of_pos (by simp [hq])]
      rw [jsMapGet_cons, jsMapGet_cons]
      by_cases he : q.1 = k
      · have : k ∉ ks := he ▸ hq
        simp [he, this]
      · rw [if_neg he, if_neg he, ih]

/-- Folding `jsMapDelete` over a list of entries filters out their keys. -/
theorem foldl_jsMapDelete_eq_filter {α β : Type} (l : List (String × β))
    (m : List (String × α)) :
    l.foldl (fun m p => jsMapDelete m p.1) m =
      m.filter (fun q => decide (q.1 ∉ l.map Prod.fst)) := by
  induction l generalizing m with
  | nil => simp
  | cons p t ih =>
    rw [List.foldl_cons, ih (jsMapDelete m p.1)]
    simp only [jsMapDelete, List.filter_filter]
    apply List.filter_congr
    intro q _
    simp only [List.map_cons, List.mem_cons, not_or, decide_eq_true_eq]
    by_cases h1 : q.1 = p.1 <;> by_cases h2 : q.1 ∈ t.map Prod.fst <;>
      simp [h1, h2]


/-- With pairwise-distinct keys, removing the keys of the first `n`
entries from an association list leaves exactly the remaining entries. -/
theorem filter_not_mem_take_keys {β : Type} :
    ∀ (pc : List (String × β)) (n : Nat), (pc.map Prod.fst).Nodup →
      pc.filter (fun q => decide (q.1 ∉ (pc.take n).map Prod.fst)) = pc.drop n
  | pc, 0, h => by simp
  | [], n + 1, h => by simp
  | q :: rest, n + 1, h => by
      simp only [List.take_succ_cons, List.map_cons, List.drop_succ_cons]
      rw [List.filter_cons_of_neg (by simp)]
      have hq : q.1 ∉ rest.map Prod.fst := (List.nodup_cons.mp h).1
      have hcg : rest.filter
            (fun r => decide (r.1 ∉ q.1 :: (rest.take n).map Prod.fst)) =
          rest.filter (fun r => decide (r.1 ∉ (rest.take n).map Prod.fst)) := by
        apply List.filter_congr
        intro r hr
        have hne : r.1 ≠ q.1 := fun hc => hq (hc ▸ List.mem_map_of_mem Prod.fst hr)
        simp [List.mem_cons, hne]
      rw [hcg, filter_not_mem_take_keys rest n (List.nodup_cons.mp h).2]

/-- C5: when the cleanup tick runs with the speculative cache holding
more than 20 entries (timestamps increasing in insertion order, paths
distinct), it removes exactly the oldest `size - 20` entries: the
preloader cache retains precisely the 20 newest entries in order, and
each removed path is deleted from the router speculative cache while
every other path keeps its binding there. -/
theorem cleanupTick_evicts_oldest (pc : List (String × PreloadEntry))
    (rc : List (String × Fragment))
    (hsorted : pc.Pairwise (fun a b => a.2.timestamp < b.2.timestamp))
    (hkeys : (pc.map Prod.fst).Nodup) (hlen : 20 < pc.length) :
    (IntelligentPreloader.cleanupTick pc rc).1 = pc.drop (pc.length - 20) ∧
    (∀ k, k ∈ (pc.take (pc.length - 20)).map Prod.fst →
      jsMapGet (IntelligentPreloader.cleanupTick pc rc).2 k = none) ∧
    (∀ k, k ∉ (pc.take (pc.length - 20)).map Prod.fst →
      jsMapGet (IntelligentPreloader.cleanupTick pc rc).2 k = jsMapGet rc k) := by
  have hms : pc.mergeSort (fun a b => a.2.timestamp ≤ b.2.timestamp) = pc :=
    List.mergeSort_of_sorted
      (hsorted.imp (fun h => decide_eq_true (Nat.le_of_lt h)))
  unfold IntelligentPreloader.cleanupTick
  rw [if_neg (by omega)]
  dsimp only
  rw [hms, foldl_jsMapDelete_eq_filter, foldl_jsMapDelete_eq_filter]
  refine ⟨filter_not_mem_take_keys pc (pc.length - 20) hkeys, ?_, ?_⟩
  · intro k hk
    rw [jsMapGet_filter_out, if_pos hk]
  · intro k hk
    rw [jsMapGet_filter_out, if_neg hk]

/-- Witness for `cleanupTick_evicts_oldest` on the 25-entry specimen:
the 5 oldest entries go, the 20 newest stay, and the router cache loses
exactly the removed paths. -/
theorem cleanupTick_evicts_oldest_witness :
    (IntelligentPreloader.cleanupTick specimenPreloadCache
      specimenRouterPreloadCache).1 =
      specimenPreloadCache.drop (specimenPreloadCache.length - 20) ∧
    jsMapGet (IntelligentPreloader.cleanupTick specimenPreloadCache
      specimenRouterPreloadCache).2 "p01" = none ∧
    jsMapGet (IntelligentPreloader.cleanupTick specimenPreloadCache
      specimenRouterPreloadCache).2 "p06" =
      jsMapGet specimenRouterPreloadCache "p06" := by
  have h := cleanupTick_evicts_oldest specimenPreloadCache
    specimenRouterPreloadCache (by decide) (by decide) (by decide)
  exact ⟨h.1, h.2.1 "p01" (by decide), h.2.2 "p06" (by decide)⟩

/-- Lemma: `updateFirst` is the identity when `f` fixes every element the
predicate accepts. -/
theorem updateFirst_eq_self {α : Type} (p : α → Bool) (f : α → α) :
    ∀ (l : List α), (∀ x ∈ l, p x = true → f x = x) → updateFirst p f l = l
  | [], _ => rfl
  | x :: t, h => by
      unfold updateFirst
      by_cases hp : p x = true
      · rw [if_pos hp, h x (List.mem_cons_self x t) hp]
      · rw [if_neg hp,
          updateFirst_eq_self p f t (fun y hy hpy => h y (List.mem_cons_of_mem x hy) hpy)]

/-- A fold whose step fixes the accumulator on every list element is
the identity. -/
theorem foldl_fixed {α β : Type} (g : α → β → α) (acc : α) :
    ∀ (l : List β), (∀ b ∈ l, g acc b = acc) → l.foldl g acc = acc
  | [], _ => rfl
  | b :: t, h => by
      rw [List.foldl_cons, h b (List.mem_cons_self b t)]
      exact foldl_fixed g acc t (fun x hx => h x (List.mem_cons_of_mem b hx))

/-- Entries after a `jsMapSet` come from the original map or are the
newly written binding. -/
theorem jsMapSet_mem {α : Type} {m : List (String × α)} {k : String} {v : α}
    {p : String × α} (h : p ∈ jsMapSet m k v) : p ∈ m ∨ p = (k, v) := by
  unfold jsMapSet at h
  split_ifs at h
  · obtain ⟨q, hq, hmap⟩ := List.mem_map.mp h
    by_cases hk : q.1 = k
    · right
      rw [← hmap, if_pos hk]
    · left
      rw [← hmap, if_neg hk]
      exact hq
  · rcases List.mem_append.mp h with h1 | h2
    · exact .inl h1
    · right
      simpa using h2

/-- Entries of a map built by folding `jsMapSet` come from the initial
accumulator or are one of the written bindings. -/
theorem foldl_jsMapSet_mem {α β : Type} (key : β → String) (val : β → α) :
    ∀ (l : List β) (acc : List (String × α)) (p : String × α),
      p ∈ l.foldl (fun acc x => jsMapSet acc (key x) (val x)) acc →
      p ∈ acc ∨ ∃ x ∈ l, p = (key x, val x)
  | [], _, _, h => .inl h
  | x :: t, acc, p, h => by
      rw [List.foldl_cons] at h
      rcases foldl_jsMapSet_mem key val t _ p h with h1 | h2
      · rcases jsMapSet_mem h1 with h3 | h4
        · exact .inl h3
        · exact .inr ⟨x, List.mem_cons_self x t, h4⟩
      · obtain ⟨y, hy, hp⟩ := h2
        exact .inr ⟨y, List.mem_cons_of_mem x hy, hp⟩

/-- Rewriting a binding that is already present (keys distinct) leaves
the map unchanged. -/
theorem jsMapSet_self {α : Type} {m : List (String × α)} {p : String × α}
    (hnd : (m.map Prod.fst).Nodup) (hp : p ∈ m) : jsMapSet m p.1 p.2 = m := by
  unfold jsMapSet
  rw [if_pos (List.any_eq_true.mpr ⟨p, hp, by simp⟩)]
  have : ∀ q ∈ m, (if q.1 = p.1 then (p.1, p.2) else q) = q := by
    intro q hq
    by_cases h : q.1 = p.1
    · have hqp : q = p := List.inj_on_of_nodup_map hnd hq hp h
      rw [if_pos h, hqp]
    · exact if_neg h
  rw [List.map_congr_left this]
  exact List.map_id' m

/-- Lemma: writing back attributes an element already carries (its keys
distinct) changes nothing. -/
theorem applyAttrs_self {e : List (String × String)}
    {upd : List (String × String)} (hnd : (e.map Prod.fst).Nodup)
    (hsub : ∀ p ∈ upd, p ∈ e) : applyAttrs e upd = e := by
  unfold applyAttrs
  exact foldl_fixed _ e upd (fun p hp => jsMapSet_self hnd (hsub p hp))

/-- Writing a field's own value back (field names distinct) changes
nothing. -/
theorem setFirstField_self :
    ∀ (fields : List FormField), (fields.map FormField.name).Nodup →
      ∀ fl ∈ fields, setFirstField fl.name fl.value fields = fields
  | [], _, _, h => absurd h (List.not_mem_nil _)
  | g :: rest, hnd, fl, hfl => by
      unfold setFirstField
      by_cases h : g.name = fl.name
      · rw [if_pos h]
        have : fl = g := by
          rcases List.mem_cons.mp hfl with h1 | h1
          · exact h1
          · exact absurd (h ▸ List.mem_map_of_mem FormField.name h1)
              (List.nodup_cons.mp hnd).1
        rw [this]
      · rw [if_neg h]
        have hfl2 : fl ∈ rest := by
          rcases List.mem_cons.mp hfl with h1 | h1
          · exact absurd h1 (fun hc => h (by rw [hc]))
          · exact h1
        rw [setFirstField_self rest (List.nodup_cons.mp hnd).2 fl hfl2]


/-- C7 counterexample: a region with two id-less active links
`a.nav-link.active.foo` (first) and `a.nav-link.active` (second).  Both
snapshots re-resolve by derived selector, and the second snapshot's
selector `a.nav-link.active` first-matches the *first* link, whose
class list is overwritten to `nav-link active` — the class `foo` is
lost, so capture-then-restore with no intervening change does not
reproduce the region. -/
theorem roundtrip_counterexample :
    ComponentPersistence.restoreComponentState
      ⟨0, 0, [⟨"", "a", ["nav-link", "active", "foo"], [], ""⟩,
              ⟨"", "a", ["nav-link", "active"], [], ""⟩], []⟩
      (ComponentPersistence.captureComponentState 0
        ⟨0, 0, [⟨"", "a", ["nav-link", "active", "foo"], [], ""⟩,
                ⟨"", "a", ["nav-link", "active"], [], ""⟩], []⟩) ≠
      ⟨0, 0, [⟨"", "a", ["nav-link", "active", "foo"], [], ""⟩,
              ⟨"", "a", ["nav-link", "active"], [], ""⟩], []⟩ := by
  decide


/-- C7 (amended): capture followed immediately by restore reproduces
the region exactly — scroll offsets, active-element classes and
whitelisted attributes, form field values and toggle state — *provided*
the restore lookups resolve each snapshot back to the element it was
captured from: every active and toggle element has a nonempty id,
nonempty element ids are unique, attribute names are unique per
element, every form has a nonempty unique id, and field names are
unique per form.  Without those (see the counterexample) a snapshot can
be applied to a different first-matching element. -/
theorem captureRestore_roundtrip (now : Nat) (r : Region)
    (hA : ∀ e ∈ r.elems, isActiveMarked e = true → e.id ≠ "")
    (hT : ∀ e ∈ r.elems, isToggleMarked e = true → e.id ≠ "")
    (hIds : ∀ e ∈ r.elems, ∀ e' ∈ r.elems, e.id = e'.id → e.id ≠ "" → e = e')
    (hAttrs : ∀ e ∈ r.elems, (e.attrs.map Prod.fst).Nodup)
    (hFid : ∀ f ∈ r.forms, f.id ≠ "")
    (hFids : ∀ f ∈ r.forms, ∀ f' ∈ r.forms, f.id = f'.id → f = f')
    (hFields : ∀ f ∈ r.forms, (f.fields.map FormField.name).Nodup) :
    ComponentPersistence.restoreComponentState r
      (ComponentPersistence.captureComponentState now r) = r := by
  have hElems1 :
      (ComponentPersistence.captureComponentState now r).activeElements.foldl
        (fun es snap => updateFirst (fun e => matchesSelector e snap.selector)
          (applyActiveSnapshot snap) es) r.elems = r.elems := by
    apply foldl_fixed
    intro snap hsnap
    unfold ComponentPersistence.captureComponentState at hsnap
    dsimp only at hsnap
    obtain ⟨e0, he0f, hsnapEq⟩ := List.mem_map.mp hsnap
    have he0 : e0 ∈ r.elems := List.mem_of_mem_filter he0f
    have hact : isActiveMarked e0 = true := List.of_mem_filter he0f
    have hid : e0.id ≠ "" := hA e0 he0 hact
    have hsel : snap.selector = .byId e0.id := by
      rw [← hsnapEq]
      dsimp only
      unfold ComponentPersistence.getElementSelector
      rw [if_pos hid]
    apply updateFirst_eq_self
    intro e he hmatch
    rw [hsel] at hmatch
    have heid : e.id = e0.id := by simpa [matchesSelector] using hmatch
    have hee : e = e0 := hIds e he e0 he0 heid (heid ▸ hid)
    rw [hee, ← hsnapEq]
    unfold applyActiveSnapshot
    dsimp only
    unfold ComponentPersistence.getElementAttributes
    rw [applyAttrs_self (hAttrs e0 he0)
      (fun p hp => List.mem_of_mem_filter hp)]
  have hForms :
      (ComponentPersistence.captureComponentState now r).formData.foldl
        (fun fs p => restoreFormRecord fs p.1 p.2) r.forms = r.forms := by
    apply foldl_fixed
    intro pr hpr
    unfold ComponentPersistence.captureComponentState at hpr
    dsimp only at hpr
    rcases foldl_jsMapSet_mem _ _ _ _ _ hpr with h0 | ⟨f0, hf0, hpEq⟩
    · exact absurd h0 (List.not_mem_nil _)
    · have hid : f0.id ≠ "" := hFid f0 hf0
      have hkey : pr.1 = f0.id := by
        rw [hpEq]
        dsimp only
        rw [if_pos hid]
      unfold restoreFormRecord
      rw [if_pos (List.any_eq_true.mpr ⟨f0, hf0, by simp [hkey]⟩)]
      apply updateFirst_eq_self
      intro f hf hmatch
      have hfid : f.id = f0.id := by
        rw [← hkey]
        simpa using hmatch
      have hff : f = f0 := hFids f hf f0 hf0 hfid
      rw [hff, hpEq]
      unfold applyFormData
      dsimp only
      rw [foldl_fixed _ f0.fields _ ?inner]
      case inner =>
        intro q hq
        rcases foldl_jsMapSet_mem (fun fl : FormField => fl.name)
          (fun fl : FormField => fl.value) _ _ _ hq with h0 | ⟨fl, hfl, hqEq⟩
        · exact absurd h0 (List.not_mem_nil _)
        · rw [hqEq]
          exact setFirstField_self f0.fields (hFields f0 hf0) fl hfl
  have hElems2 :
      (ComponentPersistence.captureComponentState now r).customData.foldl
        (fun es p => restoreToggleRecord es p.1 p.2) r.elems = r.elems := by
    apply foldl_fixed
    intro pr hpr
    unfold ComponentPersistence.captureComponentState at hpr
    dsimp only at hpr
    rcases foldl_jsMapSet_mem _ _ _ _ _ hpr with h0 | ⟨t0, ht0f, hpEq⟩
    · exact absurd h0 (List.not_mem_nil _)
    · have ht0 : t0 ∈ r.elems := List.mem_of_mem_filter ht0f
      have htog : isToggleMarked t0 = true := List.of_mem_filter ht0f
      have hid : t0.id ≠ "" := hT t0 ht0 htog
      have hkey : pr.1 = t0.id := by
        rw [hpEq]
        dsimp only
        rw [if_pos hid]
      unfold restoreToggleRecord
      rw [if_pos (List.any_eq_true.mpr ⟨t0, ht0, by simp [hkey]⟩)]
      apply updateFirst_eq_self
      intro e he hmatch
      have heid : e.id = t0.id := by
        rw [← hkey]
        simpa using hmatch
      have hee : e = t0 := hIds e he t0 ht0 heid (heid ▸ hid)
      rw [hee, hpEq]
      unfold applyToggleSnapshot
      dsimp only
      unfold ComponentPersistence.getElementAttributes
      rw [applyAttrs_self (hAttrs t0 ht0)
        (fun p hp => List.mem_of_mem_filter hp), ite_self]
  unfold ComponentPersistence.restoreComponentState
  dsimp only
  rw [hElems1, hForms, hElems2]
  have hsc : (ComponentPersistence.captureComponentState now r).scrollTop =
    r.scrollTop := rfl
  have hsl : (ComponentPersistence.captureComponentState now r).scrollLeft =
    r.scrollLeft := rfl
  rw [hsc, hsl]

/-- Witness for `captureRestore_roundtrip` on a concrete sidebar-like
region: an active nav link, a collapsed toggle and a login form, all
with authored ids. -/
theorem captureRestore_roundtrip_witness :
    ComponentPersistence.restoreComponentState
      ⟨120, 0,
        [⟨"nav1", "a", ["nav-link", "active"],
          [("aria-current", "page"), ("data-idx", "3")], ""⟩,
         ⟨"tg1", "div", ["collapsed"], [("data-toggle", "collapse")],
          "width: 10px;"⟩],
        [⟨"f1", [⟨"user", "alice"⟩, ⟨"pw", "x"⟩]⟩]⟩
      (ComponentPersistence.captureComponentState 99
        ⟨120, 0,
          [⟨"nav1", "a", ["nav-link", "active"],
            [("aria-current", "page"), ("data-idx", "3")], ""⟩,
           ⟨"tg1", "div", ["collapsed"], [("data-toggle", "collapse")],
            "width: 10px;"⟩],
          [⟨"f1", [⟨"user", "alice"⟩, ⟨"pw", "x"⟩]⟩]⟩) =
      ⟨120, 0,
        [⟨"nav1", "a", ["nav-link", "active"],
          [("aria-current", "page"), ("data-idx", "3")], ""⟩,
         ⟨"tg1", "div", ["collapsed"], [("data-toggle", "collapse")],
          "width: 10px;"⟩],
        [⟨"f1", [⟨"user", "alice"⟩, ⟨"pw", "x"⟩]⟩]⟩ :=
  captureRestore_roundtrip 99 _ (by decide) (by decide) (by decide)
    (by decide) (by decide) (by decide) (by decide)
